import Mathlib

/-!
Verification of the embedding-provider cache (`EmbedderRegistry`) and the
embedding task pipeline (`run_embedding` and its secondary task operations)
of the Nonefinity task service.

The Python sources are shallowly embedded as executable Lean functions:

* `src/ai/embeddings/embedder_registry.py` — cache-key derivation (truncated
  MD5 fingerprints), `get_embedder`, `_create_embedder`, `delete_embedder`,
  `get_cache_info`, `cleanup_old_embedders`;
* `src/infrastructure/database/qdrant.py` — `save_embeddings`;
* `src/ai/embeddings/embedding.py` — the task bodies `run_embedding`,
  `search_similar`, `delete_file_embeddings`, `delete_embedding_model`,
  `cleanup_old_embedding_models`, `get_embedding_cache_info`.

External collaborators (the embedding provider network call, the Qdrant
client, Mongo, the Celery transport) are passed in as explicit function
parameters; Python exceptions become `Except`/explicit error values carrying
the exception class name and message, mirroring `type(e).__name__` and
`str(e)`.
-/

namespace Nonefinity

/-! ### 32-bit modular arithmetic and MD5

`_create_cache_key` fingerprints credentials with
`hashlib.md5(x.encode()).hexdigest()[:8]`; we implement MD5 (RFC 1321) over
the UTF-8 bytes of the input string so that the fingerprint function is the
real one, truncation and all. -/

def w32 : Nat := 4294967296

def add32 (a b : Nat) : Nat := (a + b) % w32

def not32 (a : Nat) : Nat := 4294967295 ^^^ a

def rotl32 (x s : Nat) : Nat := ((x <<< s) ||| (x >>> (32 - s))) % w32

/-- The 64 MD5 round constants `K[i] = floor(2^32 * |sin(i+1)|)`. -/
def md5K : List Nat :=
  [3614090360, 3905402710, 606105819, 3250441966, 4118548399, 1200080426, 2821735955, 4249261313,
   1770035416, 2336552879, 4294925233, 2304563134, 1804603682, 4254626195, 2792965006, 1236535329,
   4129170786, 3225465664, 643717713, 3921069994, 3593408605, 38016083, 3634488961, 3889429448,
   568446438, 3275163606, 4107603335, 1163531501, 2850285829, 4243563512, 1735328473, 2368359562,
   4294588738, 2272392833, 1839030562, 4259657740, 2763975236, 1272893353, 4139469664, 3200236656,
   681279174, 3936430074, 3572445317, 76029189, 3654602809, 3873151461, 530742520, 3299628645,
   4096336452, 1126891415, 2878612391, 4237533241, 1700485571, 2399980690, 4293915773, 2240044497,
   1873313359, 4264355552, 2734768916, 1309151649, 4149444226, 3174756917, 718787259, 3951481745]

/-- The 64 MD5 per-round left-rotation amounts. -/
def md5S : List Nat :=
  [7, 12, 17, 22, 7, 12, 17, 22, 7, 12, 17, 22, 7, 12, 17, 22,
   5, 9, 14, 20, 5, 9, 14, 20, 5, 9, 14, 20, 5, 9, 14, 20,
   4, 11, 16, 23, 4, 11, 16, 23, 4, 11, 16, 23, 4, 11, 16, 23,
   6, 10, 15, 21, 6, 10, 15, 21, 6, 10, 15, 21, 6, 10, 15, 21]

/-- UTF-8 encoding of a single character, as byte values. -/
def utf8Bytes (c : Char) : List Nat :=
  let n := c.toNat
  if n < 128 then [n]
  else if n < 2048 then [192 + n / 64, 128 + n % 64]
  else if n < 65536 then [224 + n / 4096, 128 + n / 64 % 64, 128 + n % 64]
  else [240 + n / 262144, 128 + n / 4096 % 64, 128 + n / 64 % 64, 128 + n % 64]

/-- The UTF-8 bytes of a string (Python's `s.encode()`). -/
def strBytes (s : String) : List Nat := (s.data.map utf8Bytes).flatten

/-- `v` as `n` little-endian bytes. -/
def leBytes : Nat → Nat → List Nat
  | 0, _ => []
  | n + 1, v => v % 256 :: leBytes n (v / 256)

/-- MD5 padding: append `0x80`, zero-pad to 56 mod 64, then the bit length
as 8 little-endian bytes. -/
def md5Pad (msg : List Nat) : List Nat :=
  msg ++ 128 :: List.replicate ((119 - msg.length % 64) % 64) 0 ++ leBytes 8 (8 * msg.length)

/-- The `i`-th little-endian 32-bit word of a 64-byte block. -/
def leWord (b : List Nat) (i : Nat) : Nat :=
  b.getD (4 * i) 0 + 256 * b.getD (4 * i + 1) 0 +
    65536 * b.getD (4 * i + 2) 0 + 16777216 * b.getD (4 * i + 3) 0

structure MD5State where
  a : Nat
  b : Nat
  c : Nat
  d : Nat
  deriving DecidableEq, Repr

def md5Init : MD5State := ⟨1732584193, 4023233417, 2562383102, 271733878⟩

/-- One of the 64 MD5 rounds over block `m`. -/
def md5Step (m : List Nat) (st : MD5State) (i : Nat) : MD5State :=
  let f :=
    if i < 16 then (st.b &&& st.c) ||| (not32 st.b &&& st.d)
    else if i < 32 then (st.d &&& st.b) ||| (not32 st.d &&& st.c)
    else if i < 48 then st.b ^^^ st.c ^^^ st.d
    else st.c ^^^ (st.b ||| not32 st.d)
  let g :=
    if i < 16 then i
    else if i < 32 then (5 * i + 1) % 16
    else if i < 48 then (3 * i + 5) % 16
    else 7 * i % 16
  let tmp := add32 (add32 (add32 f st.a) (md5K.getD i 0)) (leWord m g)
  ⟨st.d, add32 st.b (rotl32 tmp (md5S.getD i 0)), st.b, st.c⟩

/-- Process one 64-byte block. -/
def md5Block (st : MD5State) (block : List Nat) : MD5State :=
  let r := (List.range 64).foldl (md5Step block) st
  ⟨add32 st.a r.a, add32 st.b r.b, add32 st.c r.c, add32 st.d r.d⟩

/-- Split a byte list into 64-byte blocks (fuel-driven for structural
recursion; called with `fuel = l.length`). -/
def chunks64 : Nat → List Nat → List (List Nat)
  | 0, _ => []
  | _, [] => []
  | fuel + 1, l => l.take 64 :: chunks64 fuel (l.drop 64)

def hexDigit (n : Nat) : Char := if n < 10 then Char.ofNat (48 + n) else Char.ofNat (87 + n)

def byteHex (b : Nat) : List Char := [hexDigit (b / 16), hexDigit (b % 16)]

def wordLEHex (w : Nat) : List Char := ((leBytes 4 w).map byteHex).flatten

/-- `hashlib.md5(s.encode()).hexdigest()`: the 32-character lowercase hex
digest of the MD5 of the UTF-8 bytes of `s`. -/
def md5Hex (s : String) : String :=
  let msg := md5Pad (strBytes s)
  let st := (chunks64 msg.length msg).foldl md5Block md5Init
  ⟨([st.a, st.b, st.c, st.d].map wordLEHex).flatten⟩

set_option maxRecDepth 20000

/-- Sanity anchor for the MD5 embedding: the RFC 1321 test vector. -/
theorem md5Hex_abc : md5Hex "abc" = "900150983cd24fb0d6963f7d28e17f72" := by decide

/-! ### Python-side value and error modelling

A Python exception is rendered as its class name (`type(e).__name__`) plus
message (`str(e)`). The `credential` dict carries `api_key` and `base_url`
(absent keys are the empty string, matching `credential.get(k, "")`, and
Python's truthiness test `if api_key` is emptiness). -/

deriving instance DecidableEq for Except

structure PyErr where
  ty : String
  msg : String
  deriving DecidableEq, Repr

structure Credential where
  api_key : String
  base_url : String
  deriving DecidableEq, Repr

/-! ### EmbedderRegistry (src/ai/embeddings/embedder_registry.py)

The cache is the class attribute `_cache: Dict[str, Dict[str, Any]]`,
modelled as an insertion-ordered association list from cache keys to
entries. A constructed embedder client is an `EmbClient`: its constructor
arguments together with an allocation serial number `id`, so that Python
reference identity of client objects is observable (`_create_embedder`
always allocates a fresh `id`). -/

inductive EmbSpec where
  | openai (model : String) (api_key : String) (base_url : String)
  | huggingface (model_name : String) (base_url : String)
  deriving DecidableEq, Repr

structure EmbClient where
  id : Nat
  spec : EmbSpec
  deriving DecidableEq, Repr

structure CacheEntry where
  embedder : EmbClient
  model_id : String
  provider : String
  created_at : Nat
  last_used : Nat
  use_count : Nat
  api_key_hash : String
  deriving DecidableEq, Repr

abbrev Cache := List (String × CacheEntry)

/-- Registry state: the `_cache` map plus the allocation counter that hands
out client identities. -/
structure RegState where
  cache : Cache
  nextId : Nat
  deriving DecidableEq

def lookup : Cache → String → Option CacheEntry
  | [], _ => none
  | (k, e) :: rest, key => if k = key then some e else lookup rest key

/-- Replace the value at `key` (first occurrence), leaving other entries. -/
def updateEntry : Cache → String → CacheEntry → Cache
  | [], _, _ => []
  | (k, e) :: rest, key, e1 =>
    if k = key then (k, e1) :: rest else (k, e) :: updateEntry rest key e1

/-- Remove the entry at `key` (first occurrence). -/
def eraseKey : Cache → String → Cache
  | [], _ => []
  | (k, e) :: rest, key => if k = key then rest else (k, e) :: eraseKey rest key

/-- The truncated-MD5 fingerprint of one credential field:
`hashlib.md5(x.encode()).hexdigest()[:8] if x else absent`. -/
def fingerprint (x absent : String) : String :=
  if x = "" then absent else (md5Hex x).take 8

/-- `EmbedderRegistry._create_cache_key`: the string
`"{provider}:{model_id}:{api_key_hash}:{base_url_hash}"`. -/
def create_cache_key (model_id provider : String) (credential : Credential) : String :=
  provider ++ ":" ++ model_id ++ ":" ++ fingerprint credential.api_key "no_key"
    ++ ":" ++ fingerprint credential.base_url "no_url"

/-- `EmbedderRegistry._create_embedder`: dispatch on the provider tag.
`"openai"` and `"huggingface"` construct clients; `"google"` raises
`NotImplementedError`; anything else raises `ValueError`. `serial` is the
identity the freshly constructed client object receives. -/
def create_embedder (provider model_id : String) (credential : Credential) (serial : Nat) :
    Except PyErr EmbClient :=
  if provider = "openai" then
    .ok ⟨serial, .openai model_id credential.api_key credential.base_url⟩
  else if provider = "huggingface" then
    .ok ⟨serial, .huggingface model_id credential.base_url⟩
  else if provider = "google" then
    .error ⟨"NotImplementedError", "Google embedding chưa được implement"⟩
  else
    .error ⟨"ValueError", "Unknown provider: " ++ provider⟩

/-- `EmbedderRegistry.get_embedder`: on a cache miss, construct a client and
insert a fresh entry with `use_count = 0`; on a hit, bump `last_used` and
`use_count` and return the stored client. `now` is `time.time()`. On a
construction failure the exception propagates and the state is returned
unchanged. -/
def get_embedder (provider model_id : String) (credential : Credential) (now : Nat)
    (st : RegState) : Except PyErr EmbClient × RegState :=
  let cache_key := create_cache_key model_id provider credential
  match lookup st.cache cache_key with
  | none =>
    match create_embedder provider model_id credential st.nextId with
    | .error e => (.error e, st)
    | .ok inst =>
      let entry : CacheEntry :=
        { embedder := inst, model_id := model_id, provider := provider,
          created_at := now, last_used := now, use_count := 0,
          api_key_hash := fingerprint credential.api_key "no_key" }
      (.ok inst, ⟨st.cache ++ [(cache_key, entry)], st.nextId + 1⟩)
  | some entry =>
    let entry1 := { entry with last_used := now, use_count := entry.use_count + 1 }
    (.ok entry1.embedder, ⟨updateEntry st.cache cache_key entry1, st.nextId⟩)

/-- `EmbedderRegistry.delete_embedder(model_id)`: the source sets
`cache_key = model_id` (comment: "model_id is the cache key") and deletes
that key if present, returning whether a deletion happened. -/
def delete_embedder (model_id : String) (cache : Cache) : Bool × Cache :=
  let cache_key := model_id
  match lookup cache cache_key with
  | some _ => (true, eraseKey cache cache_key)
  | none => (false, cache)

/-- One row of `EmbedderRegistry.get_cache_info`'s per-entry report. -/
structure CacheInfoRow where
  model_id : String
  provider : String
  created_at : Nat
  last_used : Nat
  use_count : Nat
  api_key_hash : String
  age_seconds : Nat
  deriving DecidableEq, Repr

/-- `EmbedderRegistry.get_cache_info`: the entry count plus a copied
metadata row (with derived age) per cache key; client instances are not
exposed. -/
def get_cache_info (now : Nat) (cache : Cache) : Nat × List (String × CacheInfoRow) :=
  (cache.length,
   cache.map fun kv =>
     (kv.1, ⟨kv.2.model_id, kv.2.provider, kv.2.created_at, kv.2.last_used,
             kv.2.use_count, kv.2.api_key_hash, now - kv.2.created_at⟩))

/-- The staleness test of `cleanup_old_embedders`:
`(current_time - last_used) > max_age_seconds`. -/
def isStale (now max_age : Nat) (e : CacheEntry) : Bool :=
  decide (max_age < now - e.last_used)

/-- One iteration of the deletion loop of `cleanup_old_embedders`: delete
key `k` via `delete_embedder` and count the deletion if it reported
success. -/
def sweepStep (acc : Nat × Cache) (k : String) : Nat × Cache :=
  let r := delete_embedder k acc.2
  (if r.1 then acc.1 + 1 else acc.1, r.2)

/-- `EmbedderRegistry.cleanup_old_embedders`: collect the keys of entries
whose idle time exceeds `max_age`, then delete each via `delete_embedder`,
counting the deletions that report success. -/
def cleanup_old_embedders (max_age now : Nat) (cache : Cache) : Nat × Cache :=
  let keys_to_delete := (cache.filter fun kv => isStale now max_age kv.2).map (·.1)
  keys_to_delete.foldl sweepStep (0, cache)

/-! ### QdrantService.save_embeddings (src/infrastructure/database/qdrant.py)

A Qdrant `PointStruct` built by `save_embeddings`: a uuid4 string id, the
vector, and the payload fields. The uuid generator and the `client.upsert`
call (returning `operation_info.operation_id`, or raising) are external and
passed in; `ensure_collection_exists` swallows its own exceptions and has no
observable effect on the result, so it is not modelled. Vector components
are modelled as integers (the claims only use integer-valued vectors and
never compute with components). -/

structure Point where
  id : String
  vector : List Int
  user_id : String
  file_id : String
  chunk_index : Nat
  text : String
  created_at : String
  deriving DecidableEq, Repr

structure SaveResult where
  points_processed : Nat
  operation_id : Nat
  deriving DecidableEq, Repr

/-- The points list built by the `enumerate(zip(chunks, vectors))` loop of
`save_embeddings`. -/
def qdrant_points (uuid : Nat → String) (user_id file_id : String)
    (chunks : List String) (vectors : List (List Int)) : List Point :=
  (chunks.zip vectors).enum.map fun p =>
    ⟨uuid p.1, p.2.2, user_id, file_id, p.1, p.2.1, "2025-09-21T00:00:00Z"⟩

/-- `QdrantService.save_embeddings`: raises `ValueError` on a chunk/vector
count mismatch, otherwise builds the points and makes exactly one
`client.upsert` call. The second component is the log of upsert calls made
(each element is the points argument of one call). -/
def save_embeddings (uuid : Nat → String) (upsert : List Point → Except PyErr Nat)
    (user_id file_id : String) (chunks : List String) (vectors : List (List Int)) :
    Except PyErr SaveResult × List (List Point) :=
  if chunks.length ≠ vectors.length then
    (.error ⟨"ValueError", "Number of chunks must match number of vectors"⟩, [])
  else
    let points := qdrant_points uuid user_id file_id chunks vectors
    match upsert points with
    | .error e => (.error e, [points])
    | .ok opId => (.ok ⟨points.length, opId⟩, [points])

/-! ### The run_embedding task body (src/ai/embeddings/embedding.py) -/

/-- Python truthiness of an optional string (`None` and `""` are falsy). -/
def optStrTruthy : Option String → Bool
  | some s => !(s = "")
  | none => false

/-- Python truthiness of an optional list (`None` and `[]` are falsy). -/
def optListTruthy {α : Type} : Option (List α) → Bool
  | some l => !l.isEmpty
  | none => false

structure SplitConfig where
  chunk_size : Nat
  chunk_overlap : Nat
  deriving DecidableEq, Repr

/-- The success dictionary returned by `run_embedding`. -/
structure SuccessResult where
  file_id : Option String
  user_id : String
  chunks_processed : Nat
  vectors_created : Nat
  vector_dimension : Nat
  provider : String
  model_id : String
  processing_time_seconds : Nat
  qdrant_operation : SaveResult
  embedding_record_id : Option String
  split_config : Option SplitConfig
  deriving DecidableEq, Repr

/-- The error dictionary built in `run_embedding`'s `except` block. -/
structure ErrorResult where
  file_id : Option String
  user_id : String
  provider : String
  model_id : String
  error_message : String
  error_type : String
  processing_time_seconds : Nat
  deriving DecidableEq, Repr

/-- What one execution of the task body hands back to the transport: either
the success dictionary, or (after logging the error result) the
`self.retry(countdown=60, max_retries=3, exc=e)` signal. -/
inductive RunOutcome where
  | success (r : SuccessResult)
  | retrySignal (er : ErrorResult) (countdown max_retries : Nat) (exc : PyErr)
  deriving DecidableEq, Repr

def mkErrorResult (file_id : Option String) (user_id provider model_id : String)
    (elapsed : Nat) (e : PyErr) : ErrorResult :=
  ⟨file_id, user_id, provider, model_id, e.msg, e.ty, elapsed⟩

/-- The external collaborators of one `run_embedding` execution: the wall
clock, the chunk-extraction pipeline (`run_async_in_thread` over
`_process_file_for_embedding`), the provider's `embed_documents` call, the
uuid generator and `client.upsert` consumed by `save_embeddings`, and the
Mongo `create_embedding_record` insert. -/
structure RunEnv where
  now : Nat
  elapsed : Nat
  processFile : Except PyErr (List String)
  embedDocs : EmbClient → List String → Except PyErr (List (List Int))
  uuid : Nat → String
  upsert : List Point → Except PyErr Nat
  createRecord : Except PyErr String

/-- The body of the `run_embedding` task. Returns the outcome, the registry
state after the execution, and the log of `upsert` calls made. -/
def run_embedding (env : RunEnv) (user_id : String) (file_id : Option String)
    (chunks0 : Option (List String)) (provider model_id : String)
    (credential : Credential) (split_config : Option SplitConfig)
    (st : RegState) : RunOutcome × RegState × List (List Point) :=
  let fail := fun (st1 : RegState) (calls : List (List Point)) (e : PyErr) =>
    (RunOutcome.retrySignal (mkErrorResult file_id user_id provider model_id env.elapsed e)
      60 3 e, st1, calls)
  let chunksRes : Except PyErr (List String) :=
    if optStrTruthy file_id && !optListTruthy chunks0 then env.processFile
    else .ok (chunks0.getD [])
  match chunksRes with
  | .error e => fail st [] e
  | .ok chunks =>
    if chunks.isEmpty then
      fail st [] ⟨"ValueError", "No chunks provided for embedding"⟩
    else
      match get_embedder provider model_id credential env.now st with
      | (.error e, st1) => fail st1 [] e
      | (.ok embedder, st1) =>
        match env.embedDocs embedder chunks with
        | .error e => fail st1 [] e
        | .ok vectors =>
          if vectors.isEmpty then
            fail st1 [] ⟨"ValueError", "No embeddings were generated"⟩
          else
            let qfile :=
              match file_id with
              | some f => if f = "" then "chunks" else f
              | none => "chunks"
            match save_embeddings env.uuid env.upsert user_id qfile chunks vectors with
            | (.error e, calls) => fail st1 calls e
            | (.ok save_result, calls) =>
              match (if optStrTruthy file_id then env.createRecord.map some
                     else .ok (none : Option String)) with
              | .error e => fail st1 calls e
              | .ok embedding_record_id =>
                (.success
                  ⟨file_id, user_id, chunks.length, vectors.length,
                   (match vectors with | [] => 0 | v :: _ => v.length),
                   provider, model_id, env.elapsed, save_result,
                   embedding_record_id, split_config⟩,
                 st1, calls)

/-! ### The Celery retry driver -/

inductive DriveFinal where
  | done (r : SuccessResult)
  | failed (e : PyErr)
  deriving DecidableEq, Repr

/-- The task transport's retry loop, per Celery's documented `Task.retry`
semantics: an execution runs with retry counter `retries`
(`self.request.retries`, `0` on the first execution). When the body signals
`retry(countdown, max_retries, exc)`, the transport re-executes the body
after `countdown` time-units with the counter incremented — unless the
incremented counter exceeds `max_retries`, in which case `exc` is re-raised
as a terminal task failure. Returns the number of executions, the backoffs
observed between consecutive executions, and the final outcome. `fuel`
bounds the recursion and is irrelevant whenever it exceeds the number of
executions. -/
def celery_drive (body : Nat → RunOutcome) : Nat → Nat → Nat × List Nat × DriveFinal
  | _, 0 => (0, [], .failed ⟨"OutOfFuel", ""⟩)
  | retries, fuel + 1 =>
    match body retries with
    | .success r => (1, [], .done r)
    | .retrySignal _ countdown maxR e =>
      if maxR < retries + 1 then (1, [], .failed e)
      else
        let rest := celery_drive body (retries + 1) fuel
        (rest.1 + 1, countdown :: rest.2.1, rest.2.2)

/-! ### Secondary task operations (src/ai/embeddings/embedding.py)

Each secondary task wraps its body in `try`/`except Exception` and returns a
dictionary with `status: "success"` or `status: "error"` plus
`error_type`/`error_message`; none re-raises. -/

inductive OpResult (α : Type) where
  | ok (payload : α)
  | err (error_type error_message : String)
  deriving DecidableEq, Repr

def OpResult.status {α : Type} : OpResult α → String
  | .ok _ => "success"
  | .err _ _ => "error"

/-- A search hit as mapped from the Qdrant client response (score values are
opaque payload data for the claims, carried as integers). -/
structure SearchHit where
  id : String
  score : Int
  text : Option String
  deriving DecidableEq, Repr

structure SearchPayload where
  query_text : String
  results_count : Nat
  results : List SearchHit
  deriving DecidableEq, Repr

/-- The `search_similar` task: embed the query via the registry, search the
vector store; any raised exception becomes a `status="error"` result. -/
def search_similar_task (embedQuery : EmbClient → String → Except PyErr (List Int))
    (qsearch : List Int → Except PyErr (List SearchHit))
    (query_text provider model_id : String) (credential : Credential)
    (now : Nat) (st : RegState) : OpResult SearchPayload × RegState :=
  match get_embedder provider model_id credential now st with
  | (.error e, st1) => (.err e.ty e.msg, st1)
  | (.ok emb, st1) =>
    match embedQuery emb query_text with
    | .error e => (.err e.ty e.msg, st1)
    | .ok qv =>
      match qsearch qv with
      | .error e => (.err e.ty e.msg, st1)
      | .ok hits => (.ok ⟨query_text, hits.length, hits⟩, st1)

structure DeletePayload where
  user_id : String
  file_id : String
  operation_id : Nat
  deriving DecidableEq, Repr

/-- The `delete_file_embeddings` task: delegate to
`QdrantService.delete_by_file`; a raised exception becomes a
`status="error"` result. -/
def delete_file_embeddings_task (deleteByFilter : Except PyErr Nat)
    (user_id file_id : String) : OpResult DeletePayload :=
  match deleteByFilter with
  | .error e => .err e.ty e.msg
  | .ok opId => .ok ⟨user_id, file_id, opId⟩

structure DeleteModelPayload where
  model_id : String
  deleted : Bool
  deriving DecidableEq, Repr

/-- The `delete_model` task: pass through to
`EmbedderRegistry.delete_embedder` and report the flag. -/
def delete_embedding_model_task (model_id : String) (cache : Cache) :
    OpResult DeleteModelPayload × Cache :=
  let r := delete_embedder model_id cache
  (.ok ⟨model_id, r.1⟩, r.2)

/-- The `cleanup_old_models` task: pass through to
`EmbedderRegistry.cleanup_old_embedders`, reporting the deleted count and
the `max_age_seconds` echo. -/
def cleanup_old_embedding_models_task (max_age now : Nat) (cache : Cache) :
    OpResult (Nat × Nat) × Cache :=
  let r := cleanup_old_embedders max_age now cache
  (.ok (r.1, max_age), r.2)

/-- The `cache_info` task: pass through to
`EmbedderRegistry.get_cache_info`. -/
def get_embedding_cache_info_task (now : Nat) (cache : Cache) :
    OpResult (Nat × List (String × CacheInfoRow)) :=
  .ok (get_cache_info now cache)

/-! ### Helper lemmas about the cache association list -/

theorem str_append_cancel_left {a b c : String} (h : a ++ b = a ++ c) : b = c := by
  apply String.ext
  have h2 : a.data ++ b.data = a.data ++ c.data := by
    have := congrArg String.data h
    simpa [String.data_append] using this
  exact List.append_cancel_left h2

theorem lookup_append_right (c : Cache) (k : String) (e : CacheEntry)
    (h : lookup c k = none) : lookup (c ++ [(k, e)]) k = some e := by
  induction c with
  | nil => simp [lookup]
  | cons kv rest ih =>
    obtain ⟨k0, e0⟩ := kv
    by_cases hk : k0 = k
    · simp [lookup, hk] at h
    · simp only [lookup, List.cons_append, if_neg hk] at h ⊢
      exact ih h

theorem lookup_updateEntry_self (c : Cache) (k : String) (e1 : CacheEntry)
    (h : (lookup c k).isSome) : lookup (updateEntry c k e1) k = some e1 := by
  induction c with
  | nil => simp [lookup] at h
  | cons kv rest ih =>
    obtain ⟨k0, e0⟩ := kv
    by_cases hk : k0 = k
    · simp [lookup, updateEntry, hk]
    · simp only [lookup, updateEntry, if_neg hk] at h ⊢
      exact ih h

theorem lookup_isSome_iff_mem_keys (c : Cache) (k : String) :
    (lookup c k).isSome = true ↔ k ∈ c.map (·.1) := by
  induction c with
  | nil => simp [lookup]
  | cons kv rest ih =>
    obtain ⟨k0, e0⟩ := kv
    by_cases hk : k0 = k
    · simp [lookup, hk]
    · simp [lookup, hk, ih, Ne.symm hk]

theorem eraseKey_eq_filter (c : Cache) (k : String) (h : (c.map (·.1)).Nodup) :
    eraseKey c k = c.filter fun kv => !decide (kv.1 = k) := by
  induction c with
  | nil => rfl
  | cons kv rest ih =>
    obtain ⟨k0, e0⟩ := kv
    simp only [List.map_cons, List.nodup_cons] at h
    by_cases hk : k0 = k
    · subst hk
      have hrest : rest.filter (fun kv => !decide (kv.1 = k0)) = rest := by
        apply List.filter_eq_self.2
        intro kv hkv
        simp only [Bool.not_eq_true', decide_eq_false_iff_not]
        intro heq
        exact h.1 (heq ▸ List.mem_map_of_mem (·.1) hkv)
      simp [eraseKey, List.filter_cons, hrest]
    · simp [eraseKey, List.filter_cons, hk, ih h.2]

/-! ### C5 — credential fingerprints and cache-key separation -/

/-- C5 (amended): for the same provider, model and base URL, two credentials
whose truncated-MD5 API-key fingerprints differ receive distinct cache keys.
(Distinctness of the raw API keys alone is not enough: the fingerprint is an
8-hex-character truncation of MD5 and can collide, see the counterexample.) -/
theorem C5_fingerprint_separation (provider model : String) (c1 c2 : Credential)
    (hurl : c1.base_url = c2.base_url)
    (hfp : fingerprint c1.api_key "no_key" ≠ fingerprint c2.api_key "no_key") :
    create_cache_key model provider c1 ≠ create_cache_key model provider c2 := by
  intro h
  apply hfp
  unfold create_cache_key at h
  rw [hurl] at h
  have hd := congrArg String.data h
  simp only [String.data_append, List.append_assoc] at hd
  have h1 := List.append_cancel_left hd
  have h2 := List.append_cancel_left h1
  have h3 := List.append_cancel_left h2
  have h4 := List.append_cancel_left h3
  exact String.ext (List.append_cancel_right h4)

/-- C5 witness: two credentials with short distinct API keys get distinct
cache keys, via `C5_fingerprint_separation`. -/
theorem C5_fingerprint_separation_witness :
    create_cache_key "text-embedding-ada-002" "openai" ⟨"a", ""⟩ ≠
      create_cache_key "text-embedding-ada-002" "openai" ⟨"b", ""⟩ :=
  C5_fingerprint_separation "openai" "text-embedding-ada-002" ⟨"a", ""⟩ ⟨"b", ""⟩ rfl
    (by decide)

/-- C5 counterexample: the API keys `"k15231"` and `"k25525"` are distinct
but share the first 8 hex characters of their MD5 digests (`"9b9c797d"`), so
for the same provider and model the derived cache keys are equal, and a
`get_or_create` with the second credential silently hits the first
credential's cache entry (the cache still holds a single entry). -/
theorem C5_truncated_md5_collision :
    (⟨"k15231", ""⟩ : Credential) ≠ ⟨"k25525", ""⟩ ∧
    create_cache_key "text-embedding-ada-002" "openai" ⟨"k15231", ""⟩ =
      create_cache_key "text-embedding-ada-002" "openai" ⟨"k25525", ""⟩ ∧
    ((get_embedder "openai" "text-embedding-ada-002" ⟨"k25525", ""⟩ 1
        (get_embedder "openai" "text-embedding-ada-002" ⟨"k15231", ""⟩ 0
          ⟨[], 0⟩).2).2.cache.length = 1) := by
  refine ⟨by decide, by decide, by decide⟩

/-! ### C2 — delete_model never finds entries created by get_or_create -/

/-- The registry state after a single `get_or_create("openai",
"text-embedding-ada-002", api_key="sk-test")` on an empty cache. -/
def c2State : RegState :=
  (get_embedder "openai" "text-embedding-ada-002" ⟨"sk-test", ""⟩ 0 ⟨[], 0⟩).2

/-- C2: the claim fails on the code. `get_embedder` stores the entry under
the composite key `"openai:text-embedding-ada-002:a31b7cbf:no_url"`, but
`delete_embedder` looks up `model_id` itself as the cache key (its own
comment says "model_id is the cache key"), so deleting by model id finds
nothing: the entry survives and the deletion is reported as not having
occurred (`deleted = false` inside a `status="success"` envelope). -/
theorem C2_delete_model_misses_entry :
    (lookup c2State.cache
        (create_cache_key "text-embedding-ada-002" "openai" ⟨"sk-test", ""⟩)).isSome = true ∧
    delete_embedder "text-embedding-ada-002" c2State.cache = (false, c2State.cache) ∧
    delete_embedding_model_task "text-embedding-ada-002" c2State.cache =
      (.ok ⟨"text-embedding-ada-002", false⟩, c2State.cache) := by
  refine ⟨by decide, by decide, by decide⟩

/-! ### C7 — construction failures leave the cache untouched -/

/-- C7: in `get_or_create`, an unknown provider tag fails with the
`ValueError` ("ConfigurationError") and the recognized-but-unimplemented
`"google"` provider fails with `NotImplementedError`
("UnsupportedProviderError"); and whenever `get_embedder` propagates an
error, the returned registry state is exactly the input state — no partial
entry is inserted, because construction happens strictly before insertion. -/
theorem C7_construction_before_insertion :
    (∀ provider model cred serial, provider ≠ "openai" → provider ≠ "huggingface" →
        provider ≠ "google" →
        create_embedder provider model cred serial =
          .error ⟨"ValueError", "Unknown provider: " ++ provider⟩) ∧
    (∀ model cred serial,
        create_embedder "google" model cred serial =
          .error ⟨"NotImplementedError", "Google embedding chưa được implement"⟩) ∧
    (∀ provider model cred now st e,
        (get_embedder provider model cred now st).1 = .error e →
        (get_embedder provider model cred now st).2 = st) := by
  refine ⟨?_, ?_, ?_⟩
  · intro p m c s h1 h2 h3
    simp [create_embedder, h1, h2, h3]
  · intro m c s
    simp [create_embedder]
  · intro p m c now st e h
    simp only [get_embedder] at h ⊢
    cases hl : lookup st.cache (create_cache_key m p c) with
    | none =>
      cases hc : create_embedder p m c st.nextId with
      | error e2 => simp [hl, hc]
      | ok inst => simp [hl, hc] at h
    | some entry => simp [hl] at h

/-- C7 witness: the theorem applied at concrete inputs — the unknown
provider `"azure"`, the unimplemented provider `"google"`, and a concrete
failing `get_embedder` call whose state comes back unchanged. -/
theorem C7_construction_before_insertion_witness :
    create_embedder "azure" "m" ⟨"", ""⟩ 0 =
      .error ⟨"ValueError", "Unknown provider: " ++ "azure"⟩ ∧
    create_embedder "google" "m" ⟨"", ""⟩ 0 =
      .error ⟨"NotImplementedError", "Google embedding chưa được implement"⟩ ∧
    (get_embedder "google" "m" ⟨"", ""⟩ 5 ⟨[], 7⟩).2 = ⟨[], 7⟩ :=
  ⟨C7_construction_before_insertion.1 "azure" "m" ⟨"", ""⟩ 0 (by decide) (by decide)
      (by decide),
   C7_construction_before_insertion.2.1 "m" ⟨"", ""⟩ 0,
   C7_construction_before_insertion.2.2 "google" "m" ⟨"", ""⟩ 5 ⟨[], 7⟩
     ⟨"NotImplementedError", "Google embedding chưa được implement"⟩ (by decide)⟩

/-! ### C4 — cache hits return the same client instance -/

theorem get_embedder_ok_lookup (provider model : String) (cred : Credential) (now : Nat)
    (st : RegState) (i : EmbClient) (st1 : RegState)
    (h : get_embedder provider model cred now st = (.ok i, st1)) :
    ∃ entry, lookup st1.cache (create_cache_key model provider cred) = some entry ∧
      entry.embedder = i := by
  simp only [get_embedder] at h
  cases hl : lookup st.cache (create_cache_key model provider cred) with
  | none =>
    cases hc : create_embedder provider model cred st.nextId with
    | error e2 => simp [hl, hc] at h
    | ok inst =>
      simp only [hl, hc] at h
      rw [Prod.mk.injEq] at h
      obtain ⟨hi, hst⟩ := h
      have hi2 : inst = i := by simpa using hi
      subst hi2
      refine ⟨⟨inst, model, provider, now, now, 0, fingerprint cred.api_key "no_key"⟩,
        ?_, rfl⟩
      rw [← hst]
      exact lookup_append_right st.cache _ _ hl
  | some entry =>
    simp only [hl] at h
    rw [Prod.mk.injEq] at h
    obtain ⟨hi0, hst⟩ := h
    have hi : entry.embedder = i := by simpa using hi0
    refine ⟨{ entry with last_used := now, use_count := entry.use_count + 1 }, ?_, hi⟩
    rw [← hst]
    exact lookup_updateEntry_self st.cache _ _ (by simp [hl])

theorem lookup_append_left (c l : Cache) (k : String) (entry : CacheEntry)
    (h : lookup c k = some entry) : lookup (c ++ l) k = some entry := by
  induction c with
  | nil => simp [lookup] at h
  | cons kv rest ih =>
    obtain ⟨k0, e0⟩ := kv
    by_cases hk : k0 = k
    · simp only [lookup, List.cons_append, if_pos hk] at h ⊢
      exact h
    · simp only [lookup, List.cons_append, if_neg hk] at h ⊢
      exact ih h

theorem lookup_updateEntry_ne (c : Cache) (k k1 : String) (e1 : CacheEntry)
    (h : k1 ≠ k) : lookup (updateEntry c k1 e1) k = lookup c k := by
  induction c with
  | nil => rfl
  | cons kv rest ih =>
    obtain ⟨k0, e0⟩ := kv
    by_cases hk : k0 = k1
    · subst hk
      simp [updateEntry, lookup, h]
    · by_cases hk0 : k0 = k
      · subst hk0
        simp [updateEntry, lookup, hk]
      · simp [updateEntry, lookup, hk, hk0, ih]

/-- One `get_or_create` invocation: its arguments plus the clock value at
which it runs. -/
structure RegCall where
  provider : String
  model_id : String
  credential : Credential
  now : Nat

/-- Thread a sequence of `get_or_create` invocations through the registry
state: each call's post-state feeds the next call (a failing construction
leaves the state unchanged, so the thread is total). -/
def runCalls : List RegCall → RegState → RegState
  | [], st => st
  | c :: rest, st =>
    runCalls rest (get_embedder c.provider c.model_id c.credential c.now st).2

/-- Any single `get_or_create` invocation — for any triplet — preserves the
client instance stored at every existing key: a miss only appends a fresh
key, and a hit rewrites only the metadata of its own entry, never the
`embedder` field. -/
theorem get_embedder_preserves_instance (p m : String) (c : Credential) (n : Nat)
    (st : RegState) (k : String) (entry : CacheEntry)
    (h : lookup st.cache k = some entry) :
    ∃ entry', lookup (get_embedder p m c n st).2.cache k = some entry' ∧
      entry'.embedder = entry.embedder := by
  simp only [get_embedder]
  cases hl : lookup st.cache (create_cache_key m p c) with
  | none =>
    cases hc : create_embedder p m c st.nextId with
    | error e => exact ⟨entry, h, rfl⟩
    | ok inst =>
      refine ⟨entry, ?_, rfl⟩
      simpa using lookup_append_left st.cache _ k entry h
  | some entry2 =>
    by_cases hk : create_cache_key m p c = k
    · subst hk
      have he : entry2 = entry := by
        rw [hl] at h
        exact Option.some.inj h
      refine ⟨{ entry2 with last_used := n, use_count := entry2.use_count + 1 },
        ?_, by rw [he]⟩
      simpa using lookup_updateEntry_self st.cache _ _ (by simp [hl])
    · refine ⟨entry, ?_, rfl⟩
      simpa [lookup_updateEntry_ne st.cache k _ _ hk] using h

/-- A whole sequence of intervening `get_or_create` invocations preserves
the client instance stored at every existing key. -/
theorem runCalls_preserves_instance (calls : List RegCall) :
    ∀ (st : RegState) (k : String) (entry : CacheEntry),
      lookup st.cache k = some entry →
      ∃ entry', lookup (runCalls calls st).cache k = some entry' ∧
        entry'.embedder = entry.embedder := by
  induction calls with
  | nil =>
    intro st k entry h
    exact ⟨entry, h, rfl⟩
  | cons c rest ih =>
    intro st k entry h
    obtain ⟨e1, h1, he1⟩ := get_embedder_preserves_instance c.provider c.model_id
      c.credential c.now st k entry h
    obtain ⟨e2, h2, he2⟩ := ih _ k e1 h1
    exact ⟨e2, h2, he2.trans he1⟩

/-- C4: cache-entry lifecycle of `get_or_create`. (1) A miss inserts an
entry whose `use_count` is `0` and whose stored client is the one returned.
(2) A hit returns exactly the stored client instance, bumps `last_used` to
`now` and increments `use_count` by one (strict increase on every repeat
hit). (3) In any sequence of `get_or_create` calls with no intervening
delete or sweep, every two successful calls with the identical
`(provider, model_id, credential)` triplet — with arbitrarily many other
`get_or_create` invocations for any triplets in between, modelled by
`runCalls` — return the same underlying client instance. -/
theorem C4_same_instance_on_repeat_hit :
    (∀ provider model cred now st inst st1,
        lookup st.cache (create_cache_key model provider cred) = none →
        get_embedder provider model cred now st = (.ok inst, st1) →
        lookup st1.cache (create_cache_key model provider cred) =
          some ⟨inst, model, provider, now, now, 0, fingerprint cred.api_key "no_key"⟩) ∧
    (∀ provider model cred now st entry,
        lookup st.cache (create_cache_key model provider cred) = some entry →
        get_embedder provider model cred now st =
          (.ok entry.embedder,
           ⟨updateEntry st.cache (create_cache_key model provider cred)
              { entry with last_used := now, use_count := entry.use_count + 1 },
            st.nextId⟩)) ∧
    (∀ provider model cred n1 n2 st i1 st1 (calls : List RegCall) i2 st2,
        get_embedder provider model cred n1 st = (.ok i1, st1) →
        get_embedder provider model cred n2 (runCalls calls st1) = (.ok i2, st2) →
        i1 = i2) := by
  refine ⟨?_, ?_, ?_⟩
  · intro provider model cred now st inst st1 hl h
    simp only [get_embedder, hl] at h
    cases hc : create_embedder provider model cred st.nextId with
    | error e2 => simp [hc] at h
    | ok inst2 =>
      simp only [hc] at h
      rw [Prod.mk.injEq] at h
      obtain ⟨hi, hst⟩ := h
      have hi2 : inst2 = inst := by simpa using hi
      subst hi2
      rw [← hst]
      exact lookup_append_right st.cache _ _ hl
  · intro provider model cred now st entry hl
    simp only [get_embedder, hl]
  · intro provider model cred n1 n2 st i1 st1 calls i2 st2 h1 h2
    obtain ⟨entry, hl, he⟩ :=
      get_embedder_ok_lookup provider model cred n1 st i1 st1 h1
    obtain ⟨entry', hl', he'⟩ :=
      runCalls_preserves_instance calls st1 _ entry hl
    simp only [get_embedder, hl'] at h2
    rw [Prod.mk.injEq] at h2
    have : entry'.embedder = i2 := by simpa using h2.1
    rw [← this, he', he]

/-- The intervening `get_or_create` invocations of the C4 witness: a miss
for another model, a miss on another provider, and a repeat hit on the
original triplet itself. -/
def c4Calls : List RegCall :=
  [⟨"openai", "m2", ⟨"", ""⟩, 5⟩, ⟨"huggingface", "m3", ⟨"", ""⟩, 6⟩,
   ⟨"openai", "m", ⟨"", ""⟩, 7⟩]

/-- C4 witness: on an empty registry, a first call for
`("openai", "m", no credential)` inserts the entry with `use_count = 0`; a
hit on a concrete one-entry cache returns the stored client and bumps
`use_count` from 4 to 5; and after three intervening `get_or_create`
invocations (two other triplets and a repeat of the original one) a later
call for the original triplet still returns the instance allocated by the
first call. -/
theorem C4_same_instance_on_repeat_hit_witness :
    lookup (get_embedder "openai" "m" ⟨"", ""⟩ 3 ⟨[], 0⟩).2.cache
        (create_cache_key "m" "openai" ⟨"", ""⟩) =
      some ⟨⟨0, .openai "m" "" ""⟩, "m", "openai", 3, 3, 0, "no_key"⟩ ∧
    get_embedder "openai" "m" ⟨"", ""⟩ 9
        ⟨[("openai:m:no_key:no_url",
           ⟨⟨0, .openai "m" "" ""⟩, "m", "openai", 3, 3, 4, "no_key"⟩)], 1⟩ =
      (.ok ⟨0, .openai "m" "" ""⟩,
       ⟨[("openai:m:no_key:no_url",
          ⟨⟨0, .openai "m" "" ""⟩, "m", "openai", 3, 9, 5, "no_key"⟩)], 1⟩) ∧
    (⟨0, EmbSpec.openai "m" "" ""⟩ : EmbClient) = ⟨0, EmbSpec.openai "m" "" ""⟩ := by
  refine ⟨?_, ?_, ?_⟩
  · exact C4_same_instance_on_repeat_hit.1 "openai" "m" ⟨"", ""⟩ 3 ⟨[], 0⟩
      ⟨0, .openai "m" "" ""⟩ _ (by decide) (by decide)
  · exact C4_same_instance_on_repeat_hit.2.1 "openai" "m" ⟨"", ""⟩ 9
      ⟨[("openai:m:no_key:no_url",
         ⟨⟨0, .openai "m" "" ""⟩, "m", "openai", 3, 3, 4, "no_key"⟩)], 1⟩
      ⟨⟨0, .openai "m" "" ""⟩, "m", "openai", 3, 3, 4, "no_key"⟩ (by decide)
  · exact C4_same_instance_on_repeat_hit.2.2 "openai" "m" ⟨"", ""⟩ 3 9 ⟨[], 0⟩
      ⟨0, .openai "m" "" ""⟩ (get_embedder "openai" "m" ⟨"", ""⟩ 3 ⟨[], 0⟩).2
      c4Calls ⟨0, .openai "m" "" ""⟩
      (get_embedder "openai" "m" ⟨"", ""⟩ 9
        (runCalls c4Calls (get_embedder "openai" "m" ⟨"", ""⟩ 3 ⟨[], 0⟩).2)).2
      (by decide) (by decide)

/-! ### C6 — sweep removes exactly the stale entries -/

theorem delete_embedder_mem (c : Cache) (k : String) (h : k ∈ c.map (·.1)) :
    delete_embedder k c = (true, eraseKey c k) := by
  unfold delete_embedder
  cases hl : lookup c k with
  | none =>
    exfalso
    have := (lookup_isSome_iff_mem_keys c k).2 h
    simp [hl] at this
  | some e => simp [hl]

theorem foldl_sweepStep (ks : List String) :
    ∀ (c : Cache) (acc : Nat), ks.Nodup → (c.map (·.1)).Nodup →
      (∀ k ∈ ks, k ∈ c.map (·.1)) →
      ks.foldl sweepStep (acc, c) =
        (acc + ks.length, c.filter fun kv => !decide (kv.1 ∈ ks)) := by
  induction ks with
  | nil =>
    intro c acc _ _ _
    simp
  | cons k ks ih =>
    intro c acc hks hc hsub
    have hkmem : k ∈ c.map (·.1) := hsub k (List.mem_cons_self k ks)
    have hstep : sweepStep (acc, c) k = (acc + 1, eraseKey c k) := by
      simp [sweepStep, delete_embedder_mem c k hkmem]
    rw [List.foldl_cons, hstep, eraseKey_eq_filter c k hc]
    have hknotin : k ∉ ks := (List.nodup_cons.mp hks).1
    have hks' : ks.Nodup := (List.nodup_cons.mp hks).2
    have hc' : (((c.filter fun kv => !decide (kv.1 = k)).map (·.1))).Nodup :=
      List.Nodup.sublist (List.Sublist.map (·.1) (List.filter_sublist c)) hc
    have hsub' : ∀ k' ∈ ks, k' ∈ (c.filter fun kv => !decide (kv.1 = k)).map (·.1) := by
      intro k' hk'
      obtain ⟨kv, hkv, hfst⟩ := List.mem_map.mp (hsub k' (List.mem_cons_of_mem k hk'))
      apply List.mem_map.mpr
      refine ⟨kv, List.mem_filter.mpr ⟨hkv, ?_⟩, hfst⟩
      have hne : k' ≠ k := fun he => hknotin (he ▸ hk')
      simp [hfst, hne]
    rw [ih _ (acc + 1) hks' hc' hsub']
    simp only [Prod.mk.injEq]
    constructor
    · simp [Nat.add_assoc, Nat.add_comm 1]
    · rw [List.filter_filter]
      apply List.filter_congr
      intro x _
      by_cases h1 : x.1 = k <;> by_cases h2 : x.1 ∈ ks <;>
        simp [h1, h2, List.mem_cons]

/-- C6: `cleanup_old_embedders(max_age)` (the sweep) on a cache with
distinct keys removes exactly the entries whose idle time `now - last_used`
strictly exceeds `max_age`, keeps every entry within bound, returns the
number removed; and an immediate second sweep with no intervening activity
removes nothing. -/
theorem C6_sweep_exact (max_age now : Nat) (cache : Cache)
    (h : (cache.map (·.1)).Nodup) :
    cleanup_old_embedders max_age now cache =
      ((cache.filter fun kv => isStale now max_age kv.2).length,
       cache.filter fun kv => !isStale now max_age kv.2) ∧
    cleanup_old_embedders max_age now
        (cache.filter fun kv => !isStale now max_age kv.2) =
      (0, cache.filter fun kv => !isStale now max_age kv.2) := by
  constructor
  · simp only [cleanup_old_embedders]
    have hkeys : (((cache.filter fun kv => isStale now max_age kv.2).map (·.1))).Nodup :=
      List.Nodup.sublist (List.Sublist.map (·.1) (List.filter_sublist cache)) h
    have hsub : ∀ k ∈ (cache.filter fun kv => isStale now max_age kv.2).map (·.1),
        k ∈ cache.map (·.1) := fun k hk =>
      (List.Sublist.map (·.1) (List.filter_sublist cache)).mem hk
    rw [foldl_sweepStep _ cache 0 hkeys h hsub]
    simp only [Prod.mk.injEq]
    constructor
    · simp [List.length_map]
    · apply List.filter_congr
      intro kv hkv
      have hiff : kv.1 ∈ (cache.filter fun kv => isStale now max_age kv.2).map (·.1) ↔
          isStale now max_age kv.2 = true := by
        constructor
        · intro hmem
          obtain ⟨kv2, hkv2, hfst⟩ := List.mem_map.mp hmem
          have hkv2c := List.mem_filter.mp hkv2
          have heq : kv2 = kv := List.inj_on_of_nodup_map h hkv2c.1 hkv hfst
          have := hkv2c.2
          simp only [heq] at this
          exact this
        · intro hP
          have hkvf : kv ∈ cache.filter (fun kv => isStale now max_age kv.2) :=
            List.mem_filter.mpr ⟨hkv, by simpa using hP⟩
          exact List.mem_map_of_mem (·.1) hkvf
      by_cases hm : kv.1 ∈ (cache.filter fun kv => isStale now max_age kv.2).map (·.1)
      · simp [hm, hiff.mp hm]
      · have hfalse : isStale now max_age kv.2 = false := by
          cases hP : isStale now max_age kv.2
          · rfl
          · exact absurd (hiff.mpr hP) hm
        simp [hm, hfalse]
  · simp only [cleanup_old_embedders, List.filter_filter]
    have : (cache.filter fun a => isStale now max_age a.2 && !isStale now max_age a.2) =
        [] := by
      simp [Bool.and_not_self]
    rw [this]
    rfl

def c6e1 : CacheEntry := ⟨⟨0, .openai "a" "" ""⟩, "a", "openai", 0, 0, 0, "no_key"⟩

def c6e2 : CacheEntry := ⟨⟨1, .openai "b" "" ""⟩, "b", "openai", 0, 90, 2, "no_key"⟩

def c6cache : Cache := [("openai:a:no_key:no_url", c6e1), ("openai:b:no_key:no_url", c6e2)]

/-- C6 witness: at `now = 100`, `max_age = 50`, the sweep of a two-entry
cache removes only the entry idle for 100 units (not the one idle for 10),
reports one removal, and an immediate second sweep removes nothing. -/
theorem C6_sweep_exact_witness :
    cleanup_old_embedders 50 100 c6cache = (1, [("openai:b:no_key:no_url", c6e2)]) ∧
    cleanup_old_embedders 50 100 [("openai:b:no_key:no_url", c6e2)] =
      (0, [("openai:b:no_key:no_url", c6e2)]) := by
  have h := C6_sweep_exact 50 100 c6cache (by decide)
  have e2 : c6cache.filter (fun kv => !isStale 100 50 kv.2) =
      [("openai:b:no_key:no_url", c6e2)] := by decide
  refine ⟨h.1.trans (by decide), ?_⟩
  have h2 := h.2
  rw [e2] at h2
  exact h2

/-! ### C3 — vector persistence: length guard and ordered chunk indices -/

/-- Collaborators for the concrete C3 run: a provider stub that returns the
vectors `[[1,0],[0,1]]` for any input, an upsert that succeeds with
operation id 7, and a record store that would succeed (unused: no file). -/
def c3Env : RunEnv :=
  { now := 0, elapsed := 0, processFile := .error ⟨"RuntimeError", "not used"⟩,
    embedDocs := fun _ _ => .ok [[1, 0], [0, 1]],
    uuid := fun i => toString i, upsert := fun _ => .ok 7, createRecord := .ok "rec1" }

/-- C3: `save_embeddings` raises `ValueError` ("InvariantViolation") on a
chunk/vector length mismatch and makes no upsert call; with equal lengths it
makes exactly one upsert call whose points carry `chunk_index` values
`0, 1, ..., n-1` in the chunks' positional order, carrying the chunk texts
positionally; and the concrete run with `chunks = ["a","b"]` and a provider
stub returning `[[1,0],[0,1]]` succeeds with `chunks_processed = 2`,
`vectors_created = 2`, `vector_dimension = 2` and exactly one upsert call
with chunk indices `[0, 1]`. -/
theorem C3_persisting_vectors :
    (∀ uuid upsert user file (chunks : List String) (vectors : List (List Int)),
        chunks.length ≠ vectors.length →
        save_embeddings uuid upsert user file chunks vectors =
          (.error ⟨"ValueError", "Number of chunks must match number of vectors"⟩, [])) ∧
    (∀ uuid upsert user file (chunks : List String) (vectors : List (List Int)),
        chunks.length = vectors.length →
        (save_embeddings uuid upsert user file chunks vectors).2 =
            [qdrant_points uuid user file chunks vectors] ∧
          (qdrant_points uuid user file chunks vectors).map (·.chunk_index) =
            List.range chunks.length ∧
          (qdrant_points uuid user file chunks vectors).map (·.text) = chunks) ∧
    ((run_embedding c3Env "u1" none (some ["a", "b"]) "openai"
          "text-embedding-ada-002" ⟨"", ""⟩ none ⟨[], 0⟩).1 =
        .success ⟨none, "u1", 2, 2, 2, "openai", "text-embedding-ada-002", 0,
          ⟨2, 7⟩, none, none⟩ ∧
      (run_embedding c3Env "u1" none (some ["a", "b"]) "openai"
          "text-embedding-ada-002" ⟨"", ""⟩ none ⟨[], 0⟩).2.2.map
          (fun ps => ps.map (·.chunk_index)) = [[0, 1]]) := by
  refine ⟨?_, ?_, by decide, by decide⟩
  · intro uuid upsert user file chunks vectors hne
    simp [save_embeddings, hne]
  · intro uuid upsert user file chunks vectors h
    refine ⟨?_, ?_, ?_⟩
    · simp only [save_embeddings]
      cases hu : upsert (qdrant_points uuid user file chunks vectors) <;> simp [hu, h]
    · simp only [qdrant_points, List.map_map]
      have hcomp : ((fun p : Point => p.chunk_index) ∘
          fun p : Nat × (String × List Int) =>
            (⟨uuid p.1, p.2.2, user, file, p.1, p.2.1, "2025-09-21T00:00:00Z"⟩ : Point)) =
          Prod.fst := rfl
      rw [hcomp, List.enum_map_fst, List.length_zip, ← h, Nat.min_self]
    · simp only [qdrant_points, List.map_map]
      have hcomp : ((fun p : Point => p.text) ∘
          fun p : Nat × (String × List Int) =>
            (⟨uuid p.1, p.2.2, user, file, p.1, p.2.1, "2025-09-21T00:00:00Z"⟩ : Point)) =
          (Prod.fst ∘ Prod.snd) := rfl
      rw [hcomp, ← List.map_map, List.enum_map_snd,
        List.map_fst_zip _ _ (le_of_eq h)]

/-- C3 witness: the mismatch guard fires at lengths 1 vs 0, and the
equal-length branch at two chunks and two vectors yields one upsert call
with indices `[0, 1]` and the original texts. -/
theorem C3_persisting_vectors_witness :
    save_embeddings (fun i => toString i) (fun _ => .ok 5) "u" "f" ["a"] [] =
      (.error ⟨"ValueError", "Number of chunks must match number of vectors"⟩, []) ∧
    ((save_embeddings (fun i => toString i) (fun _ => .ok 5) "u" "f" ["x", "y"]
          [[2], [3]]).2 =
        [qdrant_points (fun i => toString i) "u" "f" ["x", "y"] [[2], [3]]] ∧
      (qdrant_points (fun i => toString i) "u" "f" ["x", "y"] [[2], [3]]).map
          (·.chunk_index) = List.range (["x", "y"] : List String).length ∧
      (qdrant_points (fun i => toString i) "u" "f" ["x", "y"] [[2], [3]]).map
          (·.text) = ["x", "y"]) :=
  ⟨C3_persisting_vectors.1 (fun i => toString i) (fun _ => .ok 5) "u" "f" ["a"] []
      (by decide),
   C3_persisting_vectors.2.1 (fun i => toString i) (fun _ => .ok 5) "u" "f"
     ["x", "y"] [[2], [3]] (by decide)⟩

/-! ### C10 — ad-hoc chunk runs persist under file id "chunks" -/

/-- C10: a `run_embedding` invocation with explicit chunks and no `file_id`
persists its vectors in one upsert whose points all carry the literal file
identifier `"chunks"` (`file_id or "chunks"`), skips the provenance-record
step (the result is independent of the record store, whose outcome
`env.createRecord` is arbitrary here — even an error), and returns a
success result with `file_id = None` and `embedding_record_id = None`. -/
theorem C10_adhoc_chunks_file_id (env : RunEnv) (u provider model : String)
    (cred : Credential) (sc : Option SplitConfig) (st st1 : RegState) (emb : EmbClient)
    (cs : List String) (vectors : List (List Int)) (opId : Nat)
    (hcs : cs.isEmpty = false)
    (h1 : get_embedder provider model cred env.now st = (.ok emb, st1))
    (h2 : env.embedDocs emb cs = .ok vectors)
    (hv : vectors.isEmpty = false)
    (hlen : cs.length = vectors.length)
    (hup : env.upsert (qdrant_points env.uuid u "chunks" cs vectors) = .ok opId) :
    run_embedding env u none (some cs) provider model cred sc st =
      (.success ⟨none, u, cs.length, vectors.length,
        (match vectors with | [] => 0 | v :: _ => v.length),
        provider, model, env.elapsed,
        ⟨(qdrant_points env.uuid u "chunks" cs vectors).length, opId⟩, none, sc⟩,
       st1, [qdrant_points env.uuid u "chunks" cs vectors]) ∧
    ∀ pt ∈ qdrant_points env.uuid u "chunks" cs vectors, pt.file_id = "chunks" := by
  constructor
  · simp [run_embedding, save_embeddings, optStrTruthy, optListTruthy,
      hcs, h1, h2, hv, hlen, hup]
    cases vectors with
    | nil => simp at hv
    | cons v t => rfl
  · intro pt hpt
    simp only [qdrant_points, List.mem_map] at hpt
    obtain ⟨p, _, rfl⟩ := hpt
    rfl

/-- Collaborators for the C10 witness: the record store always raises, which
shows the provenance step is never consulted for an ad-hoc run. -/
def c10Env : RunEnv :=
  { now := 0, elapsed := 0, processFile := .error ⟨"RuntimeError", "unused"⟩,
    embedDocs := fun _ _ => .ok [[1, 0], [0, 1]],
    uuid := fun i => toString i, upsert := fun _ => .ok 3,
    createRecord := .error ⟨"RuntimeError", "record store down"⟩ }

/-- C10 witness: the theorem instantiated at a concrete ad-hoc run whose
record store would raise; the run still succeeds with `file_id = none` and
`embedding_record_id = none`, and every upserted point carries
`file_id = "chunks"`. -/
theorem C10_adhoc_chunks_file_id_witness :
    run_embedding c10Env "u7" none (some ["a", "b"]) "openai" "m" ⟨"", ""⟩ none
        ⟨[], 0⟩ =
      (.success ⟨none, "u7", (["a", "b"] : List String).length,
        ([[1, 0], [0, 1]] : List (List Int)).length,
        (match ([[1, 0], [0, 1]] : List (List Int)) with
         | [] => 0 | v :: _ => v.length),
        "openai", "m", c10Env.elapsed,
        ⟨(qdrant_points c10Env.uuid "u7" "chunks" ["a", "b"] [[1, 0], [0, 1]]).length, 3⟩,
        none, none⟩,
       (get_embedder "openai" "m" ⟨"", ""⟩ c10Env.now ⟨[], 0⟩).2,
       [qdrant_points c10Env.uuid "u7" "chunks" ["a", "b"] [[1, 0], [0, 1]]]) ∧
    ∀ pt ∈ qdrant_points c10Env.uuid "u7" "chunks" ["a", "b"] [[1, 0], [0, 1]],
      pt.file_id = "chunks" :=
  C10_adhoc_chunks_file_id c10Env "u7" "openai" "m" ⟨"", ""⟩ none ⟨[], 0⟩
    (get_embedder "openai" "m" ⟨"", ""⟩ c10Env.now ⟨[], 0⟩).2
    ⟨0, .openai "m" "" ""⟩ ["a", "b"] [[1, 0], [0, 1]] 3
    (by decide) (by decide) rfl (by decide) (by decide) rfl

/-! ### C1 — retry count and backoff for an always-raising provider -/

theorem celery_drive_const (body : Nat → RunOutcome) (er : ErrorResult) (e : PyErr)
    (h : ∀ k, body k = .retrySignal er 60 3 e) :
    ∀ fuel retries, retries ≤ 3 → 3 - retries < fuel →
      celery_drive body retries fuel =
        (4 - retries, List.replicate (3 - retries) 60, .failed e) := by
  intro fuel
  induction fuel with
  | zero =>
    intro retries _ hf
    omega
  | succ fuel ih =>
    intro retries hr hf
    simp only [celery_drive, h retries]
    by_cases h3 : 3 < retries + 1
    · have : retries = 3 := by omega
      subst this
      simp
    · rw [if_neg h3, ih (retries + 1) (by omega) (by omega)]
      have h4 : 4 - retries = (4 - (retries + 1)) + 1 := by omega
      have h5 : 3 - retries = (3 - (retries + 1)) + 1 := by omega
      simp [h4, h5, List.replicate_succ]

/-- The environment of an invocation whose provider always raises. -/
def c1Env : RunEnv :=
  { now := 0, elapsed := 0, processFile := .error ⟨"RuntimeError", "unused"⟩,
    embedDocs := fun _ _ => .error ⟨"RuntimeError", "provider down"⟩,
    uuid := fun i => toString i, upsert := fun _ => .ok 0, createRecord := .ok "r" }

/-- Each transport execution of the always-failing invocation (the task is
re-run from scratch on every attempt). -/
def c1Body : Nat → RunOutcome := fun _ =>
  (run_embedding c1Env "u1" none (some ["a"]) "openai" "m" ⟨"", ""⟩ none ⟨[], 0⟩).1

/-- C1 counterexample: driving the always-raising invocation through the
transport's retry loop (`retry(countdown=60, max_retries=3)`) executes the
body 4 times — the initial attempt plus 3 retries — not 3, with the three
60-unit backoffs in between, before the provider error surfaces as the
terminal failure. -/
theorem C1_retry_count_counterexample :
    celery_drive c1Body 0 10 =
      (4, [60, 60, 60], .failed ⟨"RuntimeError", "provider down"⟩) ∧
    (celery_drive c1Body 0 10).1 ≠ 3 := by
  refine ⟨by decide, by decide⟩

/-- C1 (amended): when the provider call always raises `e`, every execution
of `run_embedding` signals `retry(countdown=60, max_retries=3)` carrying the
error result built from `e`; the transport therefore re-executes with a
fixed 60-unit backoff between consecutive attempts, for 4 total executions
(the initial attempt plus `max_retries = 3` retries), and then surfaces `e`
as the terminal task failure. -/
theorem C1_retry_backoff_and_terminal_failure :
    (∀ env u provider model cred sc st st1 emb (cs : List String) (e : PyErr),
        cs.isEmpty = false →
        get_embedder provider model cred (RunEnv.now env) st = (.ok emb, st1) →
        env.embedDocs emb cs = .error e →
        run_embedding env u none (some cs) provider model cred sc st =
          (.retrySignal (mkErrorResult none u provider model env.elapsed e) 60 3 e,
           st1, [])) ∧
    (∀ body er (e : PyErr), (∀ k, body k = .retrySignal er 60 3 e) →
        celery_drive body 0 4 = (4, [60, 60, 60], .failed e)) := by
  constructor
  · intro env u provider model cred sc st st1 emb cs e hcs h1 h2
    simp [run_embedding, optStrTruthy, optListTruthy, hcs, h1, h2]
  · intro body er e h
    have := celery_drive_const body er e h 4 0 (by omega) (by omega)
    simpa using this

/-- C1 witness: the amended theorem at the concrete always-raising provider:
one execution yields the retry signal, and the driven loop yields 4
executions, backoffs `[60, 60, 60]` and the terminal provider error. -/
theorem C1_retry_backoff_and_terminal_failure_witness :
    run_embedding c1Env "u1" none (some ["a"]) "openai" "m" ⟨"", ""⟩ none ⟨[], 0⟩ =
      (.retrySignal
        (mkErrorResult none "u1" "openai" "m" c1Env.elapsed
          ⟨"RuntimeError", "provider down"⟩) 60 3 ⟨"RuntimeError", "provider down"⟩,
       (get_embedder "openai" "m" ⟨"", ""⟩ c1Env.now ⟨[], 0⟩).2, []) ∧
    celery_drive c1Body 0 4 =
      (4, [60, 60, 60], .failed ⟨"RuntimeError", "provider down"⟩) :=
  ⟨C1_retry_backoff_and_terminal_failure.1 c1Env "u1" "openai" "m" ⟨"", ""⟩ none
      ⟨[], 0⟩ (get_embedder "openai" "m" ⟨"", ""⟩ c1Env.now ⟨[], 0⟩).2
      ⟨0, .openai "m" "" ""⟩ ["a"] ⟨"RuntimeError", "provider down"⟩
      (by decide) (by decide) rfl,
   C1_retry_backoff_and_terminal_failure.2 c1Body
     (mkErrorResult none "u1" "openai" "m" c1Env.elapsed
       ⟨"RuntimeError", "provider down"⟩)
     ⟨"RuntimeError", "provider down"⟩ (fun _ => rfl)⟩

/-! ### C8 — secondary operations return structured results, never raise -/

/-- C8: the secondary task operations are total functions into structured
`OpResult` values (the shallow image of their blanket `try`/`except`
wrappers): every internal failure of a collaborator is captured and
returned as a `status="error"` result carrying that exception's
`error_type`/`error_message`, every success path returns a
`status="success"` result, and no case re-raises. Covers `search_similar`
(each of its three failure points and its success path),
`delete_file_embeddings`, `delete_model`, `cleanup_old_models` and
`cache_info`. -/
theorem C8_secondary_ops_structured_results :
    (∀ eq qs qt provider model cred now st e st1,
        get_embedder provider model cred now st = (.error e, st1) →
        (search_similar_task eq qs qt provider model cred now st).1 =
          .err e.ty e.msg) ∧
    (∀ eq qs qt provider model cred now st emb st1 e,
        get_embedder provider model cred now st = (.ok emb, st1) →
        eq emb qt = .error e →
        (search_similar_task eq qs qt provider model cred now st).1 =
          .err e.ty e.msg) ∧
    (∀ eq qs qt provider model cred now st emb st1 qv e,
        get_embedder provider model cred now st = (.ok emb, st1) →
        eq emb qt = .ok qv → qs qv = .error e →
        (search_similar_task eq qs qt provider model cred now st).1 =
          .err e.ty e.msg) ∧
    (∀ eq qs qt provider model cred now st emb st1 qv hits,
        get_embedder provider model cred now st = (.ok emb, st1) →
        eq emb qt = .ok qv → qs qv = .ok hits →
        (search_similar_task eq qs qt provider model cred now st).1 =
          .ok ⟨qt, hits.length, hits⟩) ∧
    (∀ u f e, delete_file_embeddings_task (.error e) u f = .err e.ty e.msg) ∧
    (∀ u f opId, delete_file_embeddings_task (.ok opId) u f = .ok ⟨u, f, opId⟩) ∧
    (∀ m c, (delete_embedding_model_task m c).1 = .ok ⟨m, (delete_embedder m c).1⟩) ∧
    (∀ ma now c, (cleanup_old_embedding_models_task ma now c).1 =
        .ok ((cleanup_old_embedders ma now c).1, ma)) ∧
    (∀ now c, get_embedding_cache_info_task now c = .ok (get_cache_info now c)) ∧
    (∀ (α : Type) (p : α), (OpResult.ok p).status = "success") ∧
    (∀ (α : Type) t m, (OpResult.err t m : OpResult α).status = "error") := by
  refine ⟨?_, ?_, ?_, ?_, ?_, ?_, ?_, ?_, ?_, ?_, ?_⟩
  · intro eq qs qt provider model cred now st e st1 h
    simp [search_similar_task, h]
  · intro eq qs qt provider model cred now st emb st1 e h1 h2
    simp [search_similar_task, h1, h2]
  · intro eq qs qt provider model cred now st emb st1 qv e h1 h2 h3
    simp [search_similar_task, h1, h2, h3]
  · intro eq qs qt provider model cred now st emb st1 qv hits h1 h2 h3
    simp [search_similar_task, h1, h2, h3]
  · intro u f e
    rfl
  · intro u f opId
    rfl
  · intro m c
    rfl
  · intro ma now c
    rfl
  · intro now c
    rfl
  · intro α p
    rfl
  · intro α t m
    rfl

/-- C8 witness: each branch of the theorem at concrete collaborators — a
failing registry lookup (`"google"`), a raising query embedding, a raising
vector-store search, a succeeding search, and both outcomes of the
delete-by-file store call. -/
theorem C8_secondary_ops_structured_results_witness :
    (search_similar_task (fun _ _ => .ok [1]) (fun _ => .ok []) "q" "google" "m"
        ⟨"", ""⟩ 0 ⟨[], 0⟩).1 =
      .err "NotImplementedError" "Google embedding chưa được implement" ∧
    (search_similar_task (fun _ _ => .error ⟨"RuntimeError", "net"⟩)
        (fun _ => .ok []) "q" "openai" "m" ⟨"", ""⟩ 0 ⟨[], 0⟩).1 =
      .err "RuntimeError" "net" ∧
    (search_similar_task (fun _ _ => .ok [1]) (fun _ => .error ⟨"RuntimeError", "qd"⟩)
        "q" "openai" "m" ⟨"", ""⟩ 0 ⟨[], 0⟩).1 =
      .err "RuntimeError" "qd" ∧
    (search_similar_task (fun _ _ => .ok [1]) (fun _ => .ok []) "q" "openai" "m"
        ⟨"", ""⟩ 0 ⟨[], 0⟩).1 = .ok ⟨"q", 0, []⟩ ∧
    delete_file_embeddings_task (.error ⟨"RuntimeError", "down"⟩) "u" "f" =
      .err "RuntimeError" "down" ∧
    delete_file_embeddings_task (.ok 2) "u" "f" = .ok ⟨"u", "f", 2⟩ :=
  ⟨C8_secondary_ops_structured_results.1 (fun _ _ => .ok [1]) (fun _ => .ok [])
      "q" "google" "m" ⟨"", ""⟩ 0 ⟨[], 0⟩
      ⟨"NotImplementedError", "Google embedding chưa được implement"⟩ ⟨[], 0⟩
      (by decide),
   C8_secondary_ops_structured_results.2.1 (fun _ _ => .error ⟨"RuntimeError", "net"⟩)
     (fun _ => .ok []) "q" "openai" "m" ⟨"", ""⟩ 0 ⟨[], 0⟩
     ⟨0, .openai "m" "" ""⟩ (get_embedder "openai" "m" ⟨"", ""⟩ 0 ⟨[], 0⟩).2
     ⟨"RuntimeError", "net"⟩ (by decide) rfl,
   C8_secondary_ops_structured_results.2.2.1 (fun _ _ => .ok [1])
     (fun _ => .error ⟨"RuntimeError", "qd"⟩) "q" "openai" "m" ⟨"", ""⟩ 0 ⟨[], 0⟩
     ⟨0, .openai "m" "" ""⟩ (get_embedder "openai" "m" ⟨"", ""⟩ 0 ⟨[], 0⟩).2
     [1] ⟨"RuntimeError", "qd"⟩ (by decide) rfl rfl,
   C8_secondary_ops_structured_results.2.2.2.1 (fun _ _ => .ok [1]) (fun _ => .ok [])
     "q" "openai" "m" ⟨"", ""⟩ 0 ⟨[], 0⟩ ⟨0, .openai "m" "" ""⟩
     (get_embedder "openai" "m" ⟨"", ""⟩ 0 ⟨[], 0⟩).2 [1] [] (by decide) rfl rfl,
   C8_secondary_ops_structured_results.2.2.2.2.1 "u" "f" ⟨"RuntimeError", "down"⟩,
   C8_secondary_ops_structured_results.2.2.2.2.2.1 "u" "f" 2⟩

end Nonefinity
